import Mathlib

/-!
Verification development for the GhostBiz pipeline
(OSM business extraction + Google Places cross-reference).

Shallow embedding of `src/osm_extractor.py`, `src/google_checker.py`,
`src/config.py` and `src/main.py`.

Modelling conventions:
- A pandas cell that is missing or NaN is `none`; a present string value
  `s` is `some s` (the empty string is a present value, as `pd.notna("")`
  is true in pandas).
- A GeoDataFrame is a list of rows together with the list of column names
  (`row.get(c)` on a row whose frame lacks column `c` yields `none`).
- Latitude/longitude values are opaque scalars (`Int` here): all numeric
  geometry (projection, centroid) happens inside the external
  osmnx/geopandas libraries, which the spec treats as an opaque provider,
  and the pipeline only copies the resulting coordinates through.
- Python exceptions are `Except String`; a function that cannot raise is
  total.
- The external HTTP exchange of `check_google_business` (requests.get +
  resp.json) is an oracle `env : Nat -> Except String ApiData` giving, for
  the row index being processed, either a transport-level exception
  (`.error`) or the decoded JSON payload.
-/

namespace GhostBiz

/-- Geometry kinds distinguished by `_get_osm_geometry_type`. -/
inductive GeomType where
  | point
  | lineString
  | polygon
  | multiPolygon
  | multiLineString
  | other
deriving DecidableEq, Repr

/-- One row of the fetched GeoDataFrame: the `name` column, the remaining
tag columns that hold a non-null value for this row, the geometry kind and
the (opaque, library-computed) centroid coordinates. -/
structure RawFeature where
  name : Option String
  tags : List (String × String)
  geom : GeomType
  clat : Int
  clon : Int
deriving DecidableEq, Repr

/-- The fetched feature collection: column names plus rows
(`gdf.columns` and `gdf.iterrows()`). -/
structure GDF where
  cols : List String
  rows : List RawFeature
deriving DecidableEq, Repr

/-- `pd.notna(row.get(field))` together with the value: the first value
stored under key `k` in the row, if any. -/
def getTag (f : RawFeature) (k : String) : Option String :=
  (f.tags.find? (fun p => p.1 = k)).map (fun p => p.2)

/-- Python `str.title()` as used on OSM tag values: each alphabetic
character is uppercased when the previous character is not alphabetic and
lowercased otherwise. -/
def pyTitle (s : String) : String :=
  (s.data.foldl
    (fun (acc : List Char × Bool) c =>
      let c' := if c.isAlpha then (if acc.2 then c.toLower else c.toUpper) else c
      (acc.1 ++ [c'], c.isAlpha))
    ([], false)).1.asString

/-- `_safe_get_column`: commit to the first candidate column name present
in the frame, then read this row's value of that column (no per-row
fallback to later candidates). -/
def safe_get_column (cols : List String) (candidates : List String)
    (f : RawFeature) : Option String :=
  match candidates.find? (fun c => cols.contains c) with
  | some c => getTag f c
  | none => none

/-- The priority list of `_determine_comprehensive_business_type`. -/
def type_mapping : List (String × String) :=
  [("shop", "Shop"), ("amenity", "Service"), ("tourism", "Tourism"),
   ("office", "Office"), ("craft", "Craft"), ("leisure", "Recreation")]

/-- `_determine_comprehensive_business_type`, one row: first present tag of
the priority order wins, formatted "<Category>: <Title-Cased value>"; no
match gives "Unknown". -/
def determine_comprehensive_business_type (cols : List String)
    (f : RawFeature) : String :=
  match type_mapping.find?
      (fun tc => cols.contains tc.1 && (getTag f tc.1).isSome) with
  | some tc =>
    match getTag f tc.1 with
    | some v => tc.2 ++ ": " ++ pyTitle (v.replace "_" " ")
    | none => "Unknown"
  | none => "Unknown"

/-- `_get_primary_osm_tag`, one row. -/
def get_primary_osm_tag (cols : List String) (f : RawFeature) : String :=
  match ["shop", "amenity", "tourism", "office", "craft", "leisure"].find?
      (fun t => cols.contains t && (getTag f t).isSome) with
  | some t => t
  | none => "unknown"

/-- The fixed ordered structured-address component list of
`_build_comprehensive_address`. -/
def address_components : List String :=
  ["addr:housenumber", "addr:housename", "addr:street", "addr:place",
   "addr:postcode", "addr:city", "addr:suburb", "addr:district",
   "addr:state", "addr:country"]

/-- The structured parts collected by the first loop of
`_build_comprehensive_address`: present values in the fixed list order. -/
def structuredParts (cols : List String) (f : RawFeature) : List String :=
  address_components.filterMap
    (fun fd => if cols.contains fd then getTag f fd else none)

/-- The fallback loop of `_build_comprehensive_address`: first present
value among the full-address fields. -/
def fallbackPart (cols : List String) (f : RawFeature) : Option String :=
  ["addr:full", "address"].findSome?
    (fun fb => if cols.contains fb then getTag f fb else none)

/-- `_build_comprehensive_address`, one row. -/
def build_comprehensive_address (cols : List String) (f : RawFeature) :
    Option String :=
  let parts := structuredParts cols f
  let parts :=
    if parts.isEmpty then
      match fallbackPart cols f with
      | some v => [v]
      | none => []
    else parts
  if parts.isEmpty then none else some (String.intercalate ", " parts)

/-- `_extract_contact_info`, one row: first candidate field present in the
frame AND non-null for this row. -/
def extract_contact_info (cols : List String) (field_names : List String)
    (f : RawFeature) : Option String :=
  field_names.findSome?
    (fun fd => if cols.contains fd then getTag f fd else none)

/-- The payment tag list of `_extract_payment_info`. -/
def payment_fields : List String :=
  ["payment:cash", "payment:cards", "payment:credit_cards",
   "payment:debit_cards", "payment:contactless"]

/-- `_extract_payment_info`, one row: Title-Cased labels of the payment
tags whose value is case-insensitively "yes", comma-joined; none when the
set is empty. -/
def extract_payment_info (cols : List String) (f : RawFeature) :
    Option String :=
  let methods := payment_fields.filterMap
    (fun fd =>
      match (if cols.contains fd then getTag f fd else none) with
      | some v =>
        if v.toLower = "yes" then
          some (pyTitle (((fd.replace "payment:" "").replace "_" " ")))
        else none
      | none => none)
  if methods.isEmpty then none else some (String.intercalate ", " methods)

/-- `_get_osm_geometry_type`, one row. -/
def get_osm_geometry_type (f : RawFeature) : String :=
  match f.geom with
  | .point => "node"
  | .lineString => "way"
  | .polygon => "way"
  | .multiPolygon => "relation"
  | .multiLineString => "relation"
  | .other => "unknown"

/-- The canonical business record: one row of the DataFrame built by
`extract_osm_businesses`. -/
structure BusinessRecord where
  id : Option String
  name : Option String
  business_type : Option String
  primary_tag : Option String
  address : Option String
  phone : Option String
  email : Option String
  website : Option String
  opening_hours : Option String
  brand : Option String
  cuisine : Option String
  wheelchair : Option String
  wifi : Option String
  payment_cards : Option String
  lat : Int
  lon : Int
  element_type : Option String
  osm_type : Option String
deriving DecidableEq, Repr

/-- The per-row part of the `data` dictionary built in
`extract_osm_businesses` (the name filter has already run, so `f.name` is
non-null here, but the field is copied through as-is). -/
def buildRecord (cols : List String) (f : RawFeature) : BusinessRecord :=
  { id := safe_get_column cols ["osmid", "id"] f
    name := f.name
    business_type := some (determine_comprehensive_business_type cols f)
    primary_tag := some (get_primary_osm_tag cols f)
    address := build_comprehensive_address cols f
    phone := extract_contact_info cols ["phone", "contact:phone", "telephone"] f
    email := extract_contact_info cols ["email", "contact:email"] f
    website := extract_contact_info cols ["website", "url", "contact:website"] f
    opening_hours := safe_get_column cols ["opening_hours"] f
    brand := safe_get_column cols ["brand"] f
    cuisine := safe_get_column cols ["cuisine"] f
    wheelchair := safe_get_column cols ["wheelchair"] f
    wifi := extract_contact_info cols ["internet_access", "wifi"] f
    payment_cards := extract_payment_info cols f
    lat := f.clat
    lon := f.clon
    element_type := safe_get_column cols ["element_type", "element"] f
    osm_type := some (get_osm_geometry_type f) }

/-- The final `df.replace(['', 'nan', 'None'], None)` pass, one cell. -/
def cleanStr (x : Option String) : Option String :=
  match x with
  | some s => if s = "" ∨ s = "nan" ∨ s = "None" then none else some s
  | none => none

/-- Website cleanup of `_clean_comprehensive_dataframe`: prepend "http://"
to a non-empty string that does not already start with a scheme
(the empty string is falsy in Python and is left unchanged here). -/
def cleanWebsite (x : Option String) : Option String :=
  match x with
  | some s =>
    if s ≠ "" ∧ ¬ (s.startsWith "http://" ∨ s.startsWith "https://") then
      some ("http://" ++ s)
    else some s
  | none => none

/-- Boolean-field standardisation of `_clean_comprehensive_dataframe`
(`str(x).lower()`; `str(None).lower() = "none"` matches neither list). -/
def cleanBool (x : Option String) : Option String :=
  match x with
  | some v =>
    if v.toLower = "yes" ∨ v.toLower = "true" ∨ v.toLower = "1" then some "Yes"
    else if v.toLower = "no" ∨ v.toLower = "false" ∨ v.toLower = "0" then some "No"
    else none
  | none => none

/-- `_clean_comprehensive_dataframe`, one row: website/phone/boolean
cleanup first, then the empty-sentinel replacement across every string
column. -/
def cleanRecord (r : BusinessRecord) : BusinessRecord :=
  { id := cleanStr r.id
    name := cleanStr r.name
    business_type := cleanStr r.business_type
    primary_tag := cleanStr r.primary_tag
    address := cleanStr r.address
    phone := cleanStr (r.phone.map String.trim)
    email := cleanStr r.email
    website := cleanStr (cleanWebsite r.website)
    opening_hours := cleanStr r.opening_hours
    brand := cleanStr r.brand
    cuisine := cleanStr r.cuisine
    wheelchair := cleanStr (cleanBool r.wheelchair)
    wifi := cleanStr (cleanBool r.wifi)
    payment_cards := cleanStr r.payment_cards
    lat := r.lat
    lon := r.lon
    element_type := cleanStr r.element_type
    osm_type := cleanStr r.osm_type }

/-- A tag-filter entry: `True` ("any value") or an explicit value list. -/
inductive TagVal where
  | any
  | only (vals : List String)
deriving DecidableEq, Repr

/-- A tag filter (`tags` dict): category name to constraint. -/
def Tags : Type := List (String × TagVal)

instance : DecidableEq Tags := by
  unfold Tags
  infer_instance

/-- `DEFAULT_TAGS` from `config.py`. -/
def DEFAULT_TAGS : Tags :=
  [("shop", .any),
   ("amenity", .only ["restaurant", "cafe", "bar", "pub", "fast_food",
                      "pharmacy", "bank"]),
   ("tourism", .only ["hotel", "hostel", "guest_house"]),
   ("craft", .any),
   ("office", .any)]

/-- The comprehensive default tag filter hard-coded inside
`extract_osm_businesses` for the `tags=None` case. -/
def COMPREHENSIVE_TAGS : Tags :=
  [("shop", .any),
   ("amenity", .only ["restaurant", "cafe", "bar", "pub", "fast_food",
                      "ice_cream", "food_court", "biergarten", "bank",
                      "pharmacy", "hospital", "clinic", "dentist",
                      "veterinary", "post_office", "fuel", "car_wash",
                      "car_rental", "taxi"]),
   ("tourism", .only ["hotel", "hostel", "guest_house", "motel", "apartment"]),
   ("office", .any),
   ("craft", .any),
   ("leisure", .only ["fitness_centre", "spa", "sauna", "bowling_alley",
                      "cinema", "theatre", "nightclub"])]

/-- `extract_osm_businesses` (the Record Set Builder).  The whole-collection
fetch (osmnx bbox or place query, including the Copenhagen bbox special
case) is the opaque `provider`, a function of the tag filter; a raised
fetch/normalization exception is `provider t = .error e`.  The surrounding
`try/except` makes any such failure degrade to the empty table. -/
def extract_osm_businesses (provider : Tags → Except String GDF)
    (tags : Option Tags) : List BusinessRecord :=
  let t := tags.getD COMPREHENSIVE_TAGS
  match provider t with
  | .error _ => []
  | .ok gdf =>
    let named := gdf.rows.filter (fun f => f.name.isSome)
    if named.length = 0 then []
    else (named.map (buildRecord gdf.cols)).map cleanRecord

/-- One ranked candidate in the decoded Places payload
(`results[k]`); every field is optional (`dict.get`). -/
structure PlaceResult where
  name : Option String
  website : Option String
  business_status : Option String
deriving DecidableEq, Repr

/-- The decoded JSON payload of the Places text-search response: an
optional `error_message` and the `results` list (an absent or empty
`results` key are both the falsy empty list). -/
structure ApiData where
  error_message : Option String
  results : List PlaceResult
deriving DecidableEq, Repr

/-- The dictionary `check_google_business` returns. -/
structure GoogleData where
  found : Bool
  google_name : Option String
  website : Option String
  status : Option String
deriving DecidableEq, Repr

/-- `check_google_business` (src/google_checker.py) after the HTTP
exchange: raise on an `error_message` payload; empty `results` is the
not-found dictionary; otherwise read the top-ranked match. -/
def check_google_business (data : ApiData) : Except String GoogleData :=
  match data.error_message with
  | some m => .error ("Google Places API Error: " ++ m)
  | none =>
    match data.results with
    | [] => .ok { found := false, google_name := none, website := none, status := none }
    | top :: _ =>
      .ok { found := true, google_name := top.name, website := top.website,
            status := top.business_status }

/-- The whole lookup for the row at index `i`: a transport-level exception
(`env i = .error`) or `check_google_business` on the decoded payload;
either `.error` is the exception caught by `main`'s `except` clause. -/
def googleCall (env : Nat → Except String ApiData) (i : Nat) :
    Except String GoogleData :=
  match env i with
  | .error e => .error e
  | .ok data => check_google_business data

/-- One VerificationOutcome row of the checkpoint CSV. -/
structure Outcome where
  osm_name : Option String
  lat : Int
  lon : Int
  google_name : Option String
  website : Option String
  status : Option String
  not_found : Bool
deriving DecidableEq, Repr

/-- Observable side effects of the orchestrator loop: one external lookup
(`check_google_business` call), the rate-limit `time.sleep(1)`, and one
checkpoint write (`df_done.to_csv`) of the appended row. -/
inductive Event where
  | call (name : Option String)
  | sleep
  | write (entry : Outcome)
deriving DecidableEq, Repr

/-- The website short-circuit test of `main`:
`pd.notna(row.get("website")) and row["website"] not in ["", None]`. -/
def websiteCond (row : BusinessRecord) : Bool :=
  match row.website with
  | some w => w ≠ ""
  | none => false

/-- The body of `main`'s per-record branch (src/main.py lines 92-145):
either the HAS_OSM_WEBSITE short-circuit (no call, no sleep) or the
Google lookup with its try/except and the rate-limit sleep.  Returns the
entry to append and the pre-append events. -/
def processOne (env : Nat → Except String ApiData) (i : Nat)
    (row : BusinessRecord) : Outcome × List Event :=
  if websiteCond row then
    ({ osm_name := row.name, lat := row.lat, lon := row.lon,
       google_name := none, website := row.website,
       status := some "HAS_OSM_WEBSITE", not_found := false }, [])
  else
    match googleCall env i with
    | .ok g =>
      ({ osm_name := row.name, lat := row.lat, lon := row.lon,
         google_name := g.google_name, website := g.website,
         status := g.status, not_found := !g.found },
       [.call row.name, .sleep])
    | .error _ =>
      ({ osm_name := row.name, lat := row.lat, lon := row.lon,
         google_name := none, website := none,
         status := some "API_ERROR", not_found := true },
       [.call row.name, .sleep])

/-- The orchestrator loop of `main` (lines 84-151).  `dn` is `done_names`,
computed once before the loop and NEVER updated inside it, exactly as in
the source; `store` is `df_done`; `i` is the `iterrows` index.  Each
processed row is appended to the store and immediately persisted
(the `.write` event). -/
def runFrom (env : Nat → Except String ApiData) (dn : List (Option String))
    (store : List Outcome) (i : Nat) :
    List BusinessRecord → List Outcome × List Event
  | [] => (store, [])
  | row :: rest =>
    if row.name ∈ dn then
      runFrom env dn store (i + 1) rest
    else
      let pe := processOne env i row
      let res := runFrom env dn (store ++ [pe.1]) (i + 1) rest
      (res.1, pe.2 ++ [.write pe.1] ++ res.2)

/-- The placeholder value of `GOOGLE_API_KEY` in `config.py`. -/
def PLACEHOLDER : String := "Replace with your actual API key"

/-- The Verification Orchestrator: `main`'s checker path (lines 59-157).
The placeholder credential check runs before the checkpoint load and the
loop; `initStore` is the loaded prior checkpoint CSV ( `[]` when the file
does not exist); `done_names` is the set of its `osm_name` values.
A `none` first component is `main` returning `None`. -/
def orchestrate (apiKey : String) (env : Nat → Except String ApiData)
    (initStore : List Outcome) (table : List BusinessRecord) :
    Option (List Outcome) × List Event :=
  if apiKey = PLACEHOLDER then (none, [])
  else
    let dn := initStore.map (fun o => o.osm_name)
    let res := runFrom env dn initStore 0 table
    (some res.1, res.2)

/-- The result of `main`: the OSM-only DataFrame, `None` (halt on the
placeholder credential), or the final checkpoint store. -/
inductive MainResult where
  | osmOnly (df : List BusinessRecord)
  | halted
  | checked (store : List Outcome)
deriving DecidableEq, Repr

/-- `main` (src/main.py).  `place_name` only selects which opaque query
the provider runs (bbox vs place), so it is absorbed into `provider`;
`tags` is the caller's tag filter, defaulted from config when `None`.
Line 35 of the source passes `DEFAULT_TAGS` to the extractor verbatim,
ignoring the local `tags` variable. -/
def main (provider : Tags → Except String GDF) (apiKey : String)
    (env : Nat → Except String ApiData) (initStore : List Outcome)
    (checker : Bool) (tags : Option Tags) : MainResult × List Event :=
  let df_osm := extract_osm_businesses provider (some DEFAULT_TAGS)
  if checker then
    match orchestrate apiKey env initStore df_osm with
    | (none, evs) => (.halted, evs)
    | (some s, evs) => (.checked s, evs)
  else (.osmOnly df_osm, [])

/-- A minimal canonical record with the given name and website and all
other fields absent (coordinates 0). -/
def mkRec (name website : Option String) : BusinessRecord :=
  { id := none, name := name, business_type := none, primary_tag := none,
    address := none, phone := none, email := none, website := website,
    opening_hours := none, brand := none, cuisine := none,
    wheelchair := none, wifi := none, payment_cards := none,
    lat := 0, lon := 0, element_type := none, osm_type := none }

/-- An oracle whose every lookup succeeds with an empty result list. -/
def envEmptyResults : Nat → Except String ApiData :=
  fun _ => .ok { error_message := none, results := [] }

/-- Claim C3: with the placeholder credential, the checker-mode run halts
before processing any record: `main` returns `None`, and the orchestrator
makes zero external lookup calls and writes zero checkpoint rows, for
every canonical table. -/
theorem C3_placeholder_halts (provider : Tags → Except String GDF)
    (env : Nat → Except String ApiData) (initStore : List Outcome)
    (tags : Option Tags) (table : List BusinessRecord) :
    main provider PLACEHOLDER env initStore true tags = (.halted, []) ∧
      orchestrate PLACEHOLDER env initStore table = (none, []) :=
  ⟨rfl, rfl⟩

/-- Claim C10: the `tags` argument of the pipeline entry point never
influences the tag filter used for extraction — `main` passes the
process-wide `DEFAULT_TAGS` to `extract_osm_businesses` verbatim
(src/main.py line 35), so any two `tags` arguments produce identical
results, and the extraction is exactly the one filtered by
`DEFAULT_TAGS`. -/
theorem C10_tags_ignored (provider : Tags → Except String GDF)
    (apiKey : String) (env : Nat → Except String ApiData)
    (initStore : List Outcome) (checker : Bool) (t1 t2 : Option Tags) :
    main provider apiKey env initStore checker t1 =
        main provider apiKey env initStore checker t2 ∧
      main provider apiKey env initStore false t1 =
        (.osmOnly (extract_osm_businesses provider (some DEFAULT_TAGS)), []) :=
  ⟨rfl, rfl⟩

/-- Claim C7: if the whole-collection fetch/normalization raises, the
Record Set Builder returns the empty table; the exception is never
propagated (the Builder is a total function into `List BusinessRecord`,
with no exception in its result type). -/
theorem C7_fetch_error_empty (provider : Tags → Except String GDF)
    (tags : Option Tags) (e : String)
    (h : provider (tags.getD COMPREHENSIVE_TAGS) = .error e) :
    extract_osm_businesses provider tags = [] := by
  simp only [extract_osm_businesses]
  rw [h]

/-- Witness for C7 at a concrete always-failing provider. -/
theorem C7_fetch_error_empty_witness :
    extract_osm_businesses (fun _ => .error "HTTPError") none = [] :=
  C7_fetch_error_empty (fun _ => .error "HTTPError") none "HTTPError" rfl

/-- Claim C2: a pending record whose website is non-null and non-empty is
short-circuited: no external lookup call, no sleep, and the appended
outcome has status "HAS_OSM_WEBSITE", the record's website, `not_found`
false and a null `google_name`; processing then continues with the rest
of the table. -/
theorem C2_short_circuit (env : Nat → Except String ApiData)
    (dn : List (Option String)) (store : List Outcome) (i : Nat)
    (row : BusinessRecord) (rest : List BusinessRecord) (w : String)
    (hnd : row.name ∉ dn) (hw : row.website = some w) (hne : w ≠ "") :
    runFrom env dn store i (row :: rest) =
      (let entry : Outcome :=
        { osm_name := row.name, lat := row.lat, lon := row.lon,
          google_name := none, website := some w,
          status := some "HAS_OSM_WEBSITE", not_found := false }
       ((runFrom env dn (store ++ [entry]) (i + 1) rest).1,
        Event.write entry ::
          (runFrom env dn (store ++ [entry]) (i + 1) rest).2)) := by
  simp only [runFrom, if_neg hnd]
  simp [processOne, websiteCond, hw, hne]

/-- Witness for C2: one pending record carrying a website. -/
theorem C2_short_circuit_witness :
    runFrom envEmptyResults [] [] 0 [mkRec (some "A") (some "http://a.dk")] =
      (let entry : Outcome :=
        { osm_name := some "A", lat := 0, lon := 0,
          google_name := none, website := some "http://a.dk",
          status := some "HAS_OSM_WEBSITE", not_found := false }
       ((runFrom envEmptyResults [] ([] ++ [entry]) 1 []).1,
        Event.write entry ::
          (runFrom envEmptyResults [] ([] ++ [entry]) 1 []).2)) :=
  C2_short_circuit envEmptyResults [] [] 0 (mkRec (some "A") (some "http://a.dk"))
    [] "http://a.dk" (by simp) rfl (by decide)

/-- Claim C8: a fixed sleep follows every QUERIED transition (after the
call, before the checkpoint write and before any later record's events),
regardless of the lookup outcome, and no sleep ever follows a
SKIPPED_HAS_SOURCE_WEBSITE transition. -/
theorem C8_delay_policy (env : Nat → Except String ApiData)
    (dn : List (Option String)) (store : List Outcome) (i : Nat)
    (row : BusinessRecord) (rest : List BusinessRecord)
    (hnd : row.name ∉ dn) :
    runFrom env dn store i (row :: rest) =
      (let entry := (processOne env i row).1
       ((runFrom env dn (store ++ [entry]) (i + 1) rest).1,
        (if websiteCond row then [Event.write entry]
         else [Event.call row.name, Event.sleep, Event.write entry]) ++
          (runFrom env dn (store ++ [entry]) (i + 1) rest).2)) := by
  simp only [runFrom, if_neg hnd]
  by_cases hw : websiteCond row = true
  · simp [processOne, hw]
  · rw [Bool.not_eq_true] at hw
    cases hg : googleCall env i with
    | ok g => simp [processOne, hw, hg]
    | error msg => simp [processOne, hw, hg]

/-- Witness for C8: a queried record (empty lookup result) shows the
call-sleep-write sequence. -/
theorem C8_delay_policy_witness :
    runFrom envEmptyResults [] [] 0 [mkRec (some "A") none] =
      (let entry := (processOne envEmptyResults 0 (mkRec (some "A") none)).1
       ((runFrom envEmptyResults [] ([] ++ [entry]) 1 []).1,
        (if websiteCond (mkRec (some "A") none) then [Event.write entry]
         else [Event.call (some "A"), Event.sleep, Event.write entry]) ++
          (runFrom envEmptyResults [] ([] ++ [entry]) 1 []).2)) :=
  C8_delay_policy envEmptyResults [] [] 0 (mkRec (some "A") none) [] (by simp)

/-- Claim C4: a lookup that raises for the current record is caught
locally — `runFrom` is total, the exception never reaches the caller —
and yields an appended outcome with status "API_ERROR", null enrichment
fields and `not_found` true, after which the remaining records are
processed exactly as usual. -/
theorem C4_error_containment (env : Nat → Except String ApiData)
    (dn : List (Option String)) (store : List Outcome) (i : Nat)
    (row : BusinessRecord) (rest : List BusinessRecord) (msg : String)
    (hnd : row.name ∉ dn) (hw : websiteCond row = false)
    (herr : googleCall env i = .error msg) :
    runFrom env dn store i (row :: rest) =
      (let entry : Outcome :=
        { osm_name := row.name, lat := row.lat, lon := row.lon,
          google_name := none, website := none,
          status := some "API_ERROR", not_found := true }
       ((runFrom env dn (store ++ [entry]) (i + 1) rest).1,
        Event.call row.name :: Event.sleep :: Event.write entry ::
          (runFrom env dn (store ++ [entry]) (i + 1) rest).2)) := by
  simp [runFrom, if_neg hnd, processOne, hw, herr]

/-- Witness for C4: a transport-level failure at the only record. -/
theorem C4_error_containment_witness :
    runFrom (fun _ => .error "ConnectionError") [] [] 0
        [mkRec (some "A") none] =
      (let entry : Outcome :=
        { osm_name := some "A", lat := 0, lon := 0,
          google_name := none, website := none,
          status := some "API_ERROR", not_found := true }
       ((runFrom (fun _ => .error "ConnectionError") [] ([] ++ [entry]) 1 []).1,
        Event.call (some "A") :: Event.sleep :: Event.write entry ::
          (runFrom (fun _ => .error "ConnectionError") [] ([] ++ [entry]) 1 []).2)) :=
  C4_error_containment (fun _ => .error "ConnectionError") [] [] 0
    (mkRec (some "A") none) [] "ConnectionError" (by simp) rfl rfl

/-- Every branch of the per-record body keys the appended outcome by the
record's own name. -/
theorem processOne_osm_name (env : Nat → Except String ApiData) (i : Nat)
    (row : BusinessRecord) : (processOne env i row).1.osm_name = row.name := by
  by_cases hw : websiteCond row = true
  · simp [processOne, hw]
  · rw [Bool.not_eq_true] at hw
    cases hg : googleCall env i with
    | ok g => simp [processOne, hw, hg]
    | error msg => simp [processOne, hw, hg]

/-- With an empty `done_names` set, the loop appends exactly one outcome
per record, in table order, keyed by the record names. -/
theorem runFrom_empty_dn_names (env : Nat → Except String ApiData)
    (store : List Outcome) (i : Nat) (rows : List BusinessRecord) :
    ((runFrom env [] store i rows).1).map (fun o => o.osm_name) =
      store.map (fun o => o.osm_name) ++ rows.map (fun r => r.name) := by
  induction rows generalizing store i with
  | nil => simp [runFrom]
  | cons row rest ih =>
    simp only [runFrom, List.not_mem_nil, if_false]
    rw [ih]
    simp [processOne_osm_name, List.append_assoc]

/-- When every record's name is already in `done_names`, the loop skips
every record: the store is unchanged and no event occurs. -/
theorem runFrom_all_done (env : Nat → Except String ApiData)
    (dn : List (Option String)) (store : List Outcome) (i : Nat)
    (rows : List BusinessRecord) (h : ∀ r ∈ rows, r.name ∈ dn) :
    runFrom env dn store i rows = (store, []) := by
  induction rows generalizing store i with
  | nil => rfl
  | cons row rest ih =>
    simp only [runFrom, if_pos (h row (List.mem_cons_self row rest))]
    exact ih store (i + 1) (fun r hr => h r (List.mem_cons_of_mem row hr))

/-- The canonical table used by the C1 counterexample: two records with
the same name "X", neither carrying a website. -/
def dupTable : List BusinessRecord := [mkRec (some "X") none, mkRec (some "X") none]

/-- Counterexample to claim C1 as stated: on a canonical table containing
two records with the same name, the first run (from an empty store)
writes TWO rows for that name — `done_names` is computed once before the
loop and never updated inside it — and the second run, seeded from that
store, keeps both.  The final store has two rows for the unique name "X",
not one. -/
theorem C1_counterexample :
    ((((orchestrate "k" envEmptyResults
          (((orchestrate "k" envEmptyResults [] dupTable).1).getD [])
          dupTable).1).getD []).map (fun o => o.osm_name)).count (some "X") =
      2 := by decide

/-- Claim C1, amended: the idempotent-resume property holds for every
canonical table whose record names are pairwise distinct (the second run
re-queries nothing, appends nothing, and the store holds exactly one
outcome per unique name, in table order); for a table with duplicate
names the first run already writes one row per occurrence, so the
"one row per unique name" part fails (see the counterexample), while the
second run still adds nothing. -/
theorem C1_idempotent_resume (key : String)
    (env : Nat → Except String ApiData) (t : List BusinessRecord)
    (s1 : List Outcome) (e1 : List Event)
    (hkey : key ≠ PLACEHOLDER)
    (hnodup : (t.map (fun r => r.name)).Nodup)
    (h1 : orchestrate key env [] t = (some s1, e1)) :
    orchestrate key env s1 t = (some s1, []) ∧
      s1.map (fun o => o.osm_name) = t.map (fun r => r.name) ∧
      (s1.map (fun o => o.osm_name)).Nodup := by
  simp only [orchestrate, if_neg hkey, List.map_nil] at h1 ⊢
  have hs1 : s1 = (runFrom env [] [] 0 t).1 := by
    have := congrArg Prod.fst h1
    simp at this
    exact this.symm
  have hnames : s1.map (fun o => o.osm_name) = t.map (fun r => r.name) := by
    rw [hs1, runFrom_empty_dn_names]
    simp
  refine ⟨?_, hnames, hnames ▸ hnodup⟩
  have hdone : ∀ r ∈ t, r.name ∈ s1.map (fun o => o.osm_name) := by
    intro r hr
    rw [hnames]
    exact List.mem_map_of_mem _ hr
  rw [runFrom_all_done env _ s1 0 t hdone]

/-- The single NOT_FOUND outcome produced for the record named "A" by an
empty-results lookup. -/
def outA : Outcome :=
  { osm_name := some "A", lat := 0, lon := 0, google_name := none,
    website := none, status := none, not_found := true }

/-- Witness for the amended C1: a one-record table, run twice. -/
theorem C1_idempotent_resume_witness :
    orchestrate "k" envEmptyResults [outA] [mkRec (some "A") none] =
        (some [outA], []) ∧
      [outA].map (fun o => o.osm_name) =
        [mkRec (some "A") none].map (fun r => r.name) ∧
      ([outA].map (fun o => o.osm_name)).Nodup :=
  C1_idempotent_resume "k" envEmptyResults [mkRec (some "A") none] [outA]
    [Event.call (some "A"), Event.sleep, Event.write outA]
    (by decide) (by decide) (by decide)

/-- Oracle for the C6 counterexample: the first lookup finds one match
that carries no `business_status` field; the second finds nothing. -/
def envFoundNoStatus : Nat → Except String ApiData :=
  fun i =>
    if i = 0 then
      .ok { error_message := none,
            results := [{ name := some "G", website := none,
                          business_status := none }] }
    else .ok { error_message := none, results := [] }

/-- Counterexample to claim C6 as stated: the code's NOT_FOUND sentinel is
the null status, but a FOUND outcome whose top match lacks an
operating-status token also records a null status
(`top_result.get("business_status")`), so the NOT_FOUND status is NOT
distinct from the FOUND branch's status vocabulary.  Record 0 is FOUND
(`not_found` = false), record 1 is NOT_FOUND (`not_found` = true), and
both carry the same status value `none`. -/
theorem C6_counterexample :
    ((runFrom envFoundNoStatus [] [] 0
        [mkRec (some "A") none, mkRec (some "B") none]).1).map
        (fun o => (o.status, o.not_found)) =
      [(none, false), (none, true)] := by decide

/-- Claim C6, amended: when the lookup returns zero matches the recorded
outcome has `google_name`, `website` and `status` all null and
`not_found` true; this null status is not guaranteed distinct from a
FOUND status (a FOUND match lacking an operating-status token also
records null, see the counterexample) — the two branches are instead
distinguished by the `not_found` flag, since the FOUND branch always
returns `found = true` and hence records `not_found` = false. -/
theorem C6_not_found_outcome (env : Nat → Except String ApiData)
    (dn : List (Option String)) (store : List Outcome) (i : Nat)
    (row : BusinessRecord) (rest : List BusinessRecord) (data : ApiData)
    (data' : ApiData) (top : PlaceResult) (rest' : List PlaceResult)
    (hnd : row.name ∉ dn) (hw : websiteCond row = false)
    (henv : env i = .ok data) (herr : data.error_message = none)
    (hres : data.results = []) :
    runFrom env dn store i (row :: rest) =
      (let entry : Outcome :=
        { osm_name := row.name, lat := row.lat, lon := row.lon,
          google_name := none, website := none, status := none,
          not_found := true }
       ((runFrom env dn (store ++ [entry]) (i + 1) rest).1,
        Event.call row.name :: Event.sleep :: Event.write entry ::
          (runFrom env dn (store ++ [entry]) (i + 1) rest).2)) ∧
      (data'.error_message = none → data'.results = top :: rest' →
        check_google_business data' =
          .ok { found := true, google_name := top.name,
                website := top.website, status := top.business_status }) := by
  constructor
  · simp [runFrom, if_neg hnd, processOne, hw, googleCall, henv,
      check_google_business, herr, hres]
  · intro h1 h2
    simp [check_google_business, h1, h2]

/-- Witness for the amended C6: a record looked up with an empty result
list, and a concrete FOUND payload. -/
theorem C6_not_found_outcome_witness :
    runFrom envEmptyResults [] [] 0 [mkRec (some "A") none] =
      (let entry : Outcome :=
        { osm_name := some "A", lat := 0, lon := 0,
          google_name := none, website := none, status := none,
          not_found := true }
       ((runFrom envEmptyResults [] ([] ++ [entry]) 1 []).1,
        Event.call (some "A") :: Event.sleep :: Event.write entry ::
          (runFrom envEmptyResults [] ([] ++ [entry]) 1 []).2)) ∧
      ((({ error_message := none,
           results := [{ name := some "G", website := some "http://g.dk",
                         business_status := some "OPERATIONAL" }] } :
            ApiData)).error_message = none →
        (({ error_message := none,
            results := [{ name := some "G", website := some "http://g.dk",
                          business_status := some "OPERATIONAL" }] } :
            ApiData)).results =
          { name := some "G", website := some "http://g.dk",
            business_status := some "OPERATIONAL" } :: [] →
        check_google_business
            { error_message := none,
              results := [{ name := some "G", website := some "http://g.dk",
                            business_status := some "OPERATIONAL" }] } =
          .ok { found := true, google_name := some "G",
                website := some "http://g.dk",
                status := some "OPERATIONAL" }) :=
  C6_not_found_outcome envEmptyResults [] [] 0 (mkRec (some "A") none) []
    { error_message := none, results := [] }
    { error_message := none,
      results := [{ name := some "G", website := some "http://g.dk",
                    business_status := some "OPERATIONAL" }] }
    { name := some "G", website := some "http://g.dk",
      business_status := some "OPERATIONAL" } []
    (by simp) rfl rfl rfl rfl

/-- Feature collection for the C5 counterexample: a single feature whose
`name` column holds the empty string (a present, non-null value in
pandas) and which carries a shop tag. -/
def gdfEmptyName : GDF :=
  { cols := ["name", "shop", "geometry"],
    rows := [{ name := some "", tags := [("shop", "bakery")],
               geom := .point, clat := 55, clon := 12 }] }

/-- Counterexample to claim C5 as stated: the Builder's name filter is
`gdf['name'].notnull()`, which drops only null names.  A feature whose
raw name is the empty string passes the filter and appears in the output
table — with its name turned into null by the final
`df.replace(['', 'nan', 'None'], None)` pass — so the output contains a
record whose name is null, violating the claimed invariant. -/
theorem C5_counterexample :
    (extract_osm_businesses (fun _ => .ok gdfEmptyName) none).map
        (fun r => r.name) =
      [none] := by decide

/-- Claim C5, amended: the name filter guarantees only that every output
record comes from a feature whose raw name was non-null: the output rows
are exactly the non-null-named features, in order, and each output name
is the raw name with the final empty-sentinel replacement applied.  A
feature with raw name null never appears, but a feature whose raw name is
the empty string (or the literal "nan"/"None") does appear, with a null
name after the final pass. -/
theorem C5_name_filter (provider : Tags → Except String GDF)
    (tags : Option Tags) (gdf : GDF)
    (h : provider (tags.getD COMPREHENSIVE_TAGS) = .ok gdf) :
    (extract_osm_businesses provider tags).map (fun r => r.name) =
      (gdf.rows.filter (fun f => f.name.isSome)).map
        (fun f => cleanStr f.name) := by
  simp only [extract_osm_businesses, h]
  by_cases hlen :
      (gdf.rows.filter (fun f => f.name.isSome)).length = 0
  · rw [if_pos hlen]
    rw [List.length_eq_zero] at hlen
    simp [hlen]
  · rw [if_neg hlen]
    simp only [List.map_map]
    rfl

/-- Feature collection with one null-named, one empty-string-named and
one properly named feature. -/
def gdfMixedNames : GDF :=
  { cols := ["name", "shop", "geometry"],
    rows :=
      [{ name := none, tags := [("shop", "bakery")],
         geom := .point, clat := 1, clon := 2 },
       { name := some "", tags := [("shop", "bakery")],
         geom := .point, clat := 3, clon := 4 },
       { name := some "Cafe K", tags := [("shop", "bakery")],
         geom := .point, clat := 5, clon := 6 }] }

/-- Witness for the amended C5 on `gdfMixedNames`. -/
theorem C5_name_filter_witness :
    (extract_osm_businesses (fun _ => .ok gdfMixedNames) none).map
        (fun r => r.name) =
      (gdfMixedNames.rows.filter (fun f => f.name.isSome)).map
        (fun f => cleanStr f.name) :=
  C5_name_filter (fun _ => .ok gdfMixedNames) none gdfMixedNames rfl

/-- Claim C9: address fallback precedence.  When a structured component
is present (here witnessed by `addr:street` = B), the resolved address is
the comma-join of the present structured components in the fixed
field-list order — a formula that never consults the full-address tag, so
the `addr:full` value cannot appear through it; the full-address fallback
is consulted only when every structured component is absent; and with no
structured component and no fallback the address is null. -/
theorem C9_address_precedence (cols : List String) (f : RawFeature)
    (A B : String) :
    (cols.contains "addr:street" = true →
      getTag f "addr:street" = some B →
      B ∈ structuredParts cols f ∧
        build_comprehensive_address cols f =
          some (String.intercalate ", " (structuredParts cols f))) ∧
    (structuredParts cols f = [] → cols.contains "addr:full" = true →
      getTag f "addr:full" = some A →
      build_comprehensive_address cols f = some A) ∧
    (structuredParts cols f = [] → fallbackPart cols f = none →
      build_comprehensive_address cols f = none) := by
  refine ⟨?_, ?_, ?_⟩
  · intro hcol hval
    have hmem : B ∈ structuredParts cols f := by
      apply List.mem_filterMap.mpr
      exact ⟨"addr:street", by decide, by rw [hcol]; simpa using hval⟩
    refine ⟨hmem, ?_⟩
    have hne : (structuredParts cols f).isEmpty = false := by
      cases hsp : structuredParts cols f with
      | nil => rw [hsp] at hmem; cases hmem
      | cons a l => rfl
    simp [build_comprehensive_address, hne]
  · intro hsp hcol hval
    have hm : "addr:full" ∈ cols := by simpa using hcol
    have hfb : fallbackPart cols f = some A := by
      simp [fallbackPart, List.findSome?_cons, hm, hval]
    simp [build_comprehensive_address, hsp, hfb]
    rfl
  · intro hsp hfb
    simp [build_comprehensive_address, hsp, hfb]

/-- Witness for C9: a feature carrying `addr:street`, `addr:city` and
`addr:full` resolves to the structured join (first conjunct); a feature
carrying only `addr:full` resolves to it (second conjunct); a feature
with no address tags resolves to null (third conjunct). -/
theorem C9_address_precedence_witness :
    ("B" ∈ structuredParts ["name", "addr:street", "addr:city", "addr:full"]
        { name := some "N",
          tags := [("addr:street", "B"), ("addr:city", "C"), ("addr:full", "A")],
          geom := .point, clat := 0, clon := 0 } ∧
      build_comprehensive_address ["name", "addr:street", "addr:city", "addr:full"]
          { name := some "N",
            tags := [("addr:street", "B"), ("addr:city", "C"), ("addr:full", "A")],
            geom := .point, clat := 0, clon := 0 } =
        some (String.intercalate ", "
          (structuredParts ["name", "addr:street", "addr:city", "addr:full"]
            { name := some "N",
              tags := [("addr:street", "B"), ("addr:city", "C"), ("addr:full", "A")],
              geom := .point, clat := 0, clon := 0 }))) ∧
    build_comprehensive_address ["name", "addr:full"]
        { name := some "N", tags := [("addr:full", "A")],
          geom := .point, clat := 0, clon := 0 } =
      some "A" ∧
    build_comprehensive_address ["name"]
        { name := some "N", tags := [],
          geom := .point, clat := 0, clon := 0 } =
      none :=
  ⟨(C9_address_precedence ["name", "addr:street", "addr:city", "addr:full"]
      { name := some "N",
        tags := [("addr:street", "B"), ("addr:city", "C"), ("addr:full", "A")],
        geom := .point, clat := 0, clon := 0 } "A" "B").1 rfl rfl,
   (C9_address_precedence ["name", "addr:full"]
      { name := some "N", tags := [("addr:full", "A")],
        geom := .point, clat := 0, clon := 0 } "A" "B").2.1 rfl rfl rfl,
   (C9_address_precedence ["name"]
      { name := some "N", tags := [],
        geom := .point, clat := 0, clon := 0 } "A" "B").2.2 rfl rfl⟩

end GhostBiz
